import Mathlib

/-!
Shallow embedding of `sectoralarm/session.py` (python-sectoralarm).

The Python module has three parts:
* `_validate_response(response)` — checks `response.status` and
  JSON-decodes the body on 200; on any other status it tries to raise
  `ResponseError(response.status_code, response.text)`, attributes the
  program's `aiohttp` response does not have, so that branch raises
  `AttributeError` instead;
* `fix_date_short(date_string)` — converts the vendor's short date strings
  (`"MM/DD HH:MM"`, `"Today HH:MM"`, `"Yesterday HH:MM"`) into ISO-8601,
  using `datetime.strptime` with format `'%m/%d %H:%M'` (which validates the
  month/day against the parser's default year 1900) and `datetime.now()` as
  the reference time;
* the `Session` class — one method per API operation; each method builds a
  URL from the stored credentials, issues one request through the external
  `aiohttp` client, validates the response, and post-processes a few fields.

Modelling conventions:
* The HTTP transport is external; each operation takes the transport's
  response as an explicit argument (`Response` below, the attributes an
  `aiohttp.ClientResponse` actually provides: `.status` and the payload
  `.json()` decodes).
* JSON values are the inductive `Json`; `json.loads` / `response.json()`
  are modelled by the executable parser `Json.parse` (objects, arrays,
  strings, integer numbers, booleans, null — the fragment exercised here).
* Python exceptions are the error type `PyErr`; `Except PyErr` replaces
  raising.  `UnboundLocalError`, `KeyError`, `TypeError`,
  `AttributeError` and `json.JSONDecodeError` each get a constructor;
  the spec's name `MalformedPayloadError` denotes the JSON-decode failure
  on the 200 path and `ParseError` the intended date-parse failure.
* `datetime.now()` is the explicit reference date `DateRef` (year, month,
  day — the only parts the code reads).
* Python dicts are association lists; `getField`/`setField` model item
  read and item assignment (insertion order preserved, as in Python).
-/

/-- JSON values, as produced by `json.loads` (numbers restricted to the
integers, the only numbers appearing in this API's payload fragments). -/
inductive Json : Type where
  | obj (pairs : List (String × Json))
  | arr (items : List Json)
  | str (value : String)
  | num (value : Int)
  | bool (value : Bool)
  | null

/-- Decimal digit value of a character, `none` for non-digits. -/
def digitVal (c : Char) : Option Nat :=
  if '0' ≤ c ∧ c ≤ '9' then some (c.toNat - 48) else none

/-- Whitespace characters (the ones relevant to `json` and `strptime`). -/
def isWsChar (c : Char) : Bool :=
  (c == ' ') || (c == '\t') || (c == '\n') || (c == '\r')

/-- Drop leading whitespace. -/
def skipWs : List Char → List Char
  | [] => []
  | c :: cs => if isWsChar c then skipWs cs else c :: cs

/-- JSON escape sequences (the common single-character ones). -/
def escChar (e : Char) : Option Char :=
  if e = '"' then some e
  else if e = '\\' then some e
  else if e = '/' then some e
  else if e = 'n' then some '\n'
  else if e = 't' then some '\t'
  else if e = 'r' then some '\r'
  else none

/-- Parse the remainder of a JSON string literal (opening quote already
consumed); returns the characters and the rest of the input. -/
def parseJStrChars : List Char → Option (List Char × List Char)
  | [] => none
  | '"' :: rest => some ([], rest)
  | '\\' :: e :: rest =>
    match escChar e with
    | none => none
    | some c => (parseJStrChars rest).map (fun p => (c :: p.1, p.2))
  | c :: rest => (parseJStrChars rest).map (fun p => (c :: p.1, p.2))

/-- Greedily accumulate decimal digits. -/
def parseDigitsAux : Nat → List Char → Nat × List Char
  | acc, [] => (acc, [])
  | acc, c :: rest =>
    match digitVal c with
    | some v => parseDigitsAux (10 * acc + v) rest
    | none => (acc, c :: rest)

/-- Parse a JSON integer (optional minus sign, at least one digit). -/
def parseNumJ : List Char → Option (Int × List Char)
  | '-' :: c :: rest =>
    match digitVal c with
    | some _ =>
      let p := parseDigitsAux 0 (c :: rest)
      some (-(p.1 : Int), p.2)
    | none => none
  | c :: rest =>
    match digitVal c with
    | some _ =>
      let p := parseDigitsAux 0 (c :: rest)
      some ((p.1 : Int), p.2)
    | none => none
  | [] => none

mutual

/-- Parse one JSON value (fuelled recursive descent). -/
def parseJVal : Nat → List Char → Option (Json × List Char)
  | 0, _ => none
  | fuel + 1, s =>
    match skipWs s with
    | 'n' :: 'u' :: 'l' :: 'l' :: r => some (.null, r)
    | 't' :: 'r' :: 'u' :: 'e' :: r => some (.bool true, r)
    | 'f' :: 'a' :: 'l' :: 's' :: 'e' :: r => some (.bool false, r)
    | '"' :: r => (parseJStrChars r).map (fun p => (.str ⟨p.1⟩, p.2))
    | '[' :: r =>
      match skipWs r with
      | ']' :: r2 => some (.arr [], r2)
      | r2 => (parseJElems fuel r2).map (fun p => (.arr p.1, p.2))
    | '\x7b' :: r =>
      match skipWs r with
      | '\x7d' :: r2 => some (.obj [], r2)
      | r2 => (parseJMembers fuel r2).map (fun p => (.obj p.1, p.2))
    | s2 => (parseNumJ s2).map (fun p => (.num p.1, p.2))

/-- Parse the elements of a non-empty JSON array, including the closing
bracket. -/
def parseJElems : Nat → List Char → Option (List Json × List Char)
  | 0, _ => none
  | fuel + 1, s =>
    match parseJVal fuel s with
    | none => none
    | some (v, r) =>
      match skipWs r with
      | ',' :: r2 => (parseJElems fuel r2).map (fun p => (v :: p.1, p.2))
      | ']' :: r2 => some ([v], r2)
      | _ => none

/-- Parse the members of a non-empty JSON object, including the closing
brace. -/
def parseJMembers : Nat → List Char → Option (List (String × Json) × List Char)
  | 0, _ => none
  | fuel + 1, s =>
    match skipWs s with
    | '"' :: r =>
      match parseJStrChars r with
      | none => none
      | some (k, r2) =>
        match skipWs r2 with
        | ':' :: r3 =>
          match parseJVal fuel r3 with
          | none => none
          | some (v, r4) =>
            match skipWs r4 with
            | ',' :: r5 => (parseJMembers fuel r5).map (fun p => ((⟨k⟩, v) :: p.1, p.2))
            | '\x7d' :: r5 => some ([(⟨k⟩, v)], r5)
            | _ => none
        | _ => none
    | _ => none

end

/-- `json.loads`: parse a whole string as one JSON value (only whitespace
may follow). -/
def Json.parse (s : String) : Except String Json :=
  match parseJVal (2 * s.length + 2) s.data with
  | none => .error "Expecting value"
  | some (v, rest) =>
    match skipWs rest with
    | [] => .ok v
    | _ => .error "Extra data"

/-- The transport's response, an `aiohttp.ClientResponse` (the `Session`
creates an `aiohttp.ClientSession`): `status` is its `.status` attribute
and `body` the payload text that its `.json()` coroutine decodes.  The
attributes the non-200 branch reads — `response.status_code`, and
`response.text` as a string — do not exist on it (`ClientResponse` has
no `status_code`, and its `.text` is a coroutine method, not a string),
so those reads are modelled as the `AttributeError` they raise, not as
fields here. -/
structure Response where
  status : Nat
  body : String

/-- Python exceptions raised by the module. -/
inductive PyErr where
  /-- `ResponseError(status_code, text)`: stores the status code and the
  JSON-decoded body (`self.text = json.loads(text)`).  The class exists,
  but `_validate_response` never reaches its constructor with the
  program's `aiohttp` response (see `validate_response`). -/
  | responseError (status_code : Nat) (text : Json)
  /-- `json.JSONDecodeError` from `json.loads` / `response.json()`. -/
  | jsonDecode (msg : String)
  /-- `UnboundLocalError` for the named local variable. -/
  | unboundLocal (var : String)
  /-- `KeyError` for the named dict key. -/
  | keyError (key : String)
  /-- `TypeError`. -/
  | typeError (msg : String)
  /-- `AttributeError` for the named missing attribute. -/
  | attributeError (attr : String)

/-- The reference date: the fields of `datetime.now()` that
`fix_date_short` reads (`.year` for `replace`, `.month`/`.day` through
`strftime('%m/%d')`). -/
structure DateRef where
  year : Nat
  month : Nat
  day : Nat

/-- Two-digit zero-padded decimal rendering, as produced by
`strftime('%m/%d')` and by the month/day/hour/minute fields of
`datetime.isoformat()` (all values rendered here are below 100). -/
def zfill2 (n : Nat) : String :=
  ⟨[Char.ofNat (48 + n / 10 % 10), Char.ofNat (48 + n % 10)]⟩

/-- Four-digit zero-padded decimal rendering of the year field of
`datetime.isoformat()` (Python years never exceed 9999). -/
def zfill4 (n : Nat) : String :=
  ⟨[Char.ofNat (48 + n / 1000 % 10), Char.ofNat (48 + n / 100 % 10),
    Char.ofNat (48 + n / 10 % 10), Char.ofNat (48 + n % 10)]⟩

/-- `datetime(y, m, d, h, mi).isoformat()` (seconds and microseconds are
zero after `strptime('%m/%d %H:%M')`, so the tail is always `":00"`). -/
def isoformat (y m d h mi : Nat) : String :=
  zfill4 y ++ "-" ++ zfill2 m ++ "-" ++ zfill2 d ++ "T" ++
    zfill2 h ++ ":" ++ zfill2 mi ++ ":00"

/-- Days per month in the year 1900 (`strptime`'s default year; 1900 is
not a leap year, so February has 28 days). -/
def daysInMonth1900 : Nat → Nat
  | 1 => 31
  | 2 => 28
  | 3 => 31
  | 4 => 30
  | 5 => 31
  | 6 => 30
  | 7 => 31
  | 8 => 31
  | 9 => 30
  | 10 => 31
  | 11 => 30
  | 12 => 31
  | _ => 0

/-- Match one or two decimal digits (greedily), as the `strptime`
numeric directives `%m`, `%d`, `%H`, `%M` do. -/
def parse12 : List Char → Option (Nat × List Char)
  | [] => none
  | [c1] =>
    match digitVal c1 with
    | none => none
    | some v1 => some (v1, [])
  | c1 :: c2 :: rest =>
    match digitVal c1 with
    | none => none
    | some v1 =>
      match digitVal c2 with
      | some v2 => some (10 * v1 + v2, rest)
      | none => some (v1, c2 :: rest)

/-- Match one or more whitespace characters (a literal space in a
`strptime` format matches the regex `\s+`). -/
def skipWs1 : List Char → Option (List Char)
  | [] => none
  | c :: rest => if isWsChar c then some (skipWs rest) else none

/-- `datetime.strptime(s, '%m/%d %H:%M')`, reduced to the fields it
yields: month, day, hour, minute.  The whole input must be consumed;
directive ranges are checked (month 1-12, day 1-31, hour 0-23,
minute 0-59) and the month/day pair is validated as a date of the
default year 1900 (so `"02/29"` is rejected).  Failure (`ValueError`)
is `none`. -/
def strptime_md_hm (s : List Char) : Option (Nat × Nat × Nat × Nat) :=
  match parse12 s with
  | some (m, '/' :: r1) =>
    match parse12 r1 with
    | some (d, r2) =>
      match skipWs1 r2 with
      | some r3 =>
        match parse12 r3 with
        | some (h, ':' :: r4) =>
          match parse12 r4 with
          | some (mi, []) =>
            if 1 ≤ m ∧ m ≤ 12 ∧ 1 ≤ d ∧ d ≤ daysInMonth1900 m ∧ h ≤ 23 ∧ mi ≤ 59 then
              some (m, d, h, mi)
            else
              none
          | _ => none
        | _ => none
      | none => none
    | none => none
  | _ => none

/-- `datetime.now().strftime('%m/%d')`. -/
def mmdd (ref : DateRef) : String :=
  zfill2 ref.month ++ "/" ++ zfill2 ref.day

/-- The two prefix tests of the `except ValueError` branch:
`date_string[:5] == 'Today'` keeps `date_string[5:]`, else
`date_string[:9] == 'Yesterday'` keeps `date_string[9:]`; both
continuations are identical in the source (substitute
`now().strftime('%m/%d')` for the prefix and recurse), so they share
one helper.  `none` is the fall-through to the unassigned `result`. -/
def relativePrefixRest : List Char → Option (List Char)
  | 'T' :: 'o' :: 'd' :: 'a' :: 'y' :: rest => some rest
  | 'Y' :: 'e' :: 's' :: 't' :: 'e' :: 'r' :: 'd' :: 'a' :: 'y' :: rest => some rest
  | _ => none

/-- `fix_date_short`, with explicit fuel for the self-call in the
`except ValueError` branch.  The body mirrors the Python function:
try `strptime` (success: attach `now().year` via `replace` and return
`isoformat()`); on `ValueError`, if the string starts with `'Today'` or
`'Yesterday'` substitute `now().strftime('%m/%d')` for that prefix and
recurse; otherwise fall off the `if` chain and hit
`return result.isoformat()` with `result` unassigned, raising
`UnboundLocalError("result")`.  The substituted prefix is numeric, so
the recursion depth never exceeds 2 and the fuel-0 case is
unreachable. -/
def fix_date_short_fuel (ref : DateRef) : Nat → List Char → Except PyErr String
  | 0, _ => .error (.unboundLocal "result")
  | fuel + 1, s =>
    match strptime_md_hm s with
    | some (m, d, h, mi) => .ok (isoformat ref.year m d h mi)
    | none =>
      match relativePrefixRest s with
      | some rest => fix_date_short_fuel ref fuel ((mmdd ref).data ++ rest)
      | none => .error (.unboundLocal "result")

/-- `fix_date_short(date_string)`, with `datetime.now()` made explicit
as `ref`. -/
def fix_date_short (ref : DateRef) (date_string : String) : Except PyErr String :=
  fix_date_short_fuel ref 2 date_string.data

/-- `_validate_response(response)`: a 200 response (`response.status`)
has its body parsed as JSON (`await response.json()`) and returned.
Any other status executes
`raise ResponseError(response.status_code, response.text)` — but the
argument `response.status_code` is evaluated first and
`aiohttp.ClientResponse` has no such attribute, so the line raises
`AttributeError("status_code")` and `ResponseError` is never
constructed (nor would `response.text`, a coroutine method, supply the
string its constructor JSON-decodes). -/
def validate_response (response : Response) : Except PyErr Json :=
  if response.status = 200 then
    match Json.parse response.body with
    | .ok j => .ok j
    | .error e => .error (.jsonDecode e)
  else
    .error (.attributeError "status_code")

/-- Dict item read `d[key]` as an option (first matching key;
`json.loads` never produces duplicate keys in a dict). -/
def getField : List (String × Json) → String → Option Json
  | [], _ => none
  | (k, v) :: rest, key => if k = key then some v else getField rest key

/-- Dict item assignment `d[key] = v`: an existing key keeps its
position, a new key is appended (Python dict insertion order). -/
def setField : List (String × Json) → String → Json → List (String × Json)
  | [], key, v => [(key, v)]
  | (k, w) :: rest, key, v =>
    if k = key then (key, v) :: rest else (k, w) :: setField rest key v

/-- Python `==` between a JSON value and a string: value equality when
the JSON value is a string, `False` for every other type. -/
def jsonEqStr (v : Json) (lbl : String) : Bool :=
  match v with
  | .str s => s == lbl
  | _ => false

/-- Whether a temperature reading entry has a `serialNo` field equal to
the given device label (the predicate the temperature filter keeps). -/
def serialMatches (device_label : String) (i : Json) : Bool :=
  match i with
  | .obj f =>
    match getField f "serialNo" with
    | some v => jsonEqStr v device_label
    | none => false
  | _ => false

/-- The `Session` object's attribute state.  `__init__` assigns exactly
`_username`, `_password`, `_panel` and `session`; `_giid` and `_vid` are
read by some methods but assigned nowhere, so an absent attribute is
modelled as `none` (reading it raises `AttributeError`).  The external
`aiohttp` client is an opaque handle. -/
structure Session where
  _username : String
  _password : String
  _panel : String
  session : Nat
  _giid : Option String
  _vid : Option String

/-- `Session.__init__(username, password, panel)`: stores the
credentials and the freshly acquired client handle; `_giid` and `_vid`
are never assigned. -/
def Session.init (username password panel : String) (handle : Nat) : Session :=
  { _username := username, _password := password, _panel := panel,
    session := handle, _giid := none, _vid := none }

/-- `Session.get_arm_state()`: one GET (response supplied by the
transport), validate, then `res['timeex'] = fix_date_short(res['timeex'])`
and return `res`.  A missing `timeex` key raises `KeyError`; a non-string
value makes `strptime` raise `TypeError`; the method assigns no `self`
attribute, so the session state is returned unchanged. -/
def Session.get_arm_state (self : Session) (ref : DateRef) (resp : Response) :
    Except PyErr Json × Session :=
  (match validate_response resp with
   | .error e => .error e
   | .ok res =>
     match res with
     | .obj fields =>
       match getField fields "timeex" with
       | none => .error (.keyError "timeex")
       | some (.str s) =>
         match fix_date_short ref s with
         | .ok iso => .ok (.obj (setField fields "timeex" (.str iso)))
         | .error e => .error e
       | some _ => .error (.typeError "strptime() argument 1 must be str")
     | _ => .error (.typeError "object is not subscriptable"),
   self)

/-- The list comprehension
`[i for i in res['temperatureComponentList'] if i['serialNo'] == device_label]`:
keeps the items whose `serialNo` equals the label; an item that is not a
dict or lacks the key raises. -/
def filterSerial (device_label : String) : List Json → Except PyErr (List Json)
  | [] => .ok []
  | i :: rest =>
    match i with
    | .obj f =>
      match getField f "serialNo" with
      | some v =>
        match filterSerial device_label rest with
        | .ok kept => .ok (if jsonEqStr v device_label then i :: kept else kept)
        | .error e => .error e
      | none => .error (.keyError "serialNo")
    | _ => .error (.typeError "object is not subscriptable")

/-- `Session.get_temperature(device_label=None)`: validate, then if a
label was given replace `res['temperatureComponentList']` by the
filtered list; with no label `res` is returned untouched. -/
def Session.get_temperature (self : Session) (device_label : Option String)
    (resp : Response) : Except PyErr Json × Session :=
  (match validate_response resp with
   | .error e => .error e
   | .ok res =>
     match device_label with
     | none => .ok res
     | some lbl =>
       match res with
       | .obj fields =>
         match getField fields "temperatureComponentList" with
         | some (.arr items) =>
           match filterSerial lbl items with
           | .ok kept =>
             .ok (.obj (setField fields "temperatureComponentList" (.arr kept)))
           | .error e => .error e
         | some _ => .error (.typeError "object is not iterable")
         | none => .error (.keyError "temperatureComponentList")
       | _ => .error (.typeError "object is not subscriptable"),
   self)

/-- `Session.get_ethernet_status()`: validate and return, no
post-processing, no state change. -/
def Session.get_ethernet_status (self : Session) (resp : Response) :
    Except PyErr Json × Session :=
  (validate_response resp, self)

/-- `Session.get_lock_devices()`: validate and return. -/
def Session.get_lock_devices (self : Session) (resp : Response) :
    Except PyErr Json × Session :=
  (validate_response resp, self)

/-- `Session.get_lock_status()`: validate and return. -/
def Session.get_lock_status (self : Session) (resp : Response) :
    Except PyErr Json × Session :=
  (validate_response resp, self)

/-- `Session.set_arm_state(code, state)`: the PUT's arguments are built
first — `urls.set_armstate(self._giid)` reads `_giid` and the `Cookie`
header reads `_vid` — so an absent attribute raises `AttributeError`
before any request is issued; otherwise the response is validated and
returned. -/
def Session.set_arm_state (self : Session) (code state_ : String)
    (resp : Response) : Except PyErr Json × Session :=
  match self._giid with
  | none => (.error (.attributeError "_giid"), self)
  | some _ =>
    match self._vid with
    | none => (.error (.attributeError "_vid"), self)
    | some _ => (validate_response resp, self)

/-- The loop `for row in res['logs']: row['time'] = fix_date_short(row['time'])`:
each entry's `time` field is normalized in order; the first failing
entry propagates its exception. -/
def fixRows (ref : DateRef) : List Json → Except PyErr (List Json)
  | [] => .ok []
  | row :: rest =>
    match row with
    | .obj f =>
      match getField f "time" with
      | some (.str s) =>
        match fix_date_short ref s with
        | .ok iso =>
          match fixRows ref rest with
          | .ok tail => .ok (.obj (setField f "time" (.str iso)) :: tail)
          | .error e => .error e
        | .error e => .error e
      | some _ => .error (.typeError "strptime() argument 1 must be str")
      | none => .error (.keyError "time")
    | _ => .error (.typeError "object is not subscriptable")

/-- `Session.get_history(offset=0)`: validate, then normalize the
`time` field of every entry of `res['logs']` and return `res`.  The
offset only parameterizes the request (external). -/
def Session.get_history (self : Session) (ref : DateRef) (offset : Nat)
    (resp : Response) : Except PyErr Json × Session :=
  (match validate_response resp with
   | .error e => .error e
   | .ok res =>
     match res with
     | .obj fields =>
       match getField fields "logs" with
       | some (.arr rows) =>
         match fixRows ref rows with
         | .ok rows2 => .ok (.obj (setField fields "logs" (.arr rows2)))
         | .error e => .error e
       | some _ => .error (.typeError "object is not iterable")
       | none => .error (.keyError "logs")
     | _ => .error (.typeError "object is not subscriptable"),
   self)

/-- `Session.lock_doorlock(serialNo, code)`: validate and return. -/
def Session.lock_doorlock (self : Session) (serialNo code : String)
    (resp : Response) : Except PyErr Json × Session :=
  (validate_response resp, self)

/-- `Session.unlock_doorlock(serialNo, code)`: validate and return. -/
def Session.unlock_doorlock (self : Session) (serialNo code : String)
    (resp : Response) : Except PyErr Json × Session :=
  (validate_response resp, self)

/-- `Session.get_lock_config(device_label)`: the GET's URL
`urls.lockconfig(self._giid, device_label)` reads `_giid` and the
`Cookie` header reads `_vid` before the request; otherwise validate and
return. -/
def Session.get_lock_config (self : Session) (device_label : String)
    (resp : Response) : Except PyErr Json × Session :=
  match self._giid with
  | none => (.error (.attributeError "_giid"), self)
  | some _ =>
    match self._vid with
    | none => (.error (.attributeError "_vid"), self)
    | some _ => (validate_response resp, self)

/-- `Session.logout()`: the DELETE's `Cookie` header reads `_vid`
before the request; otherwise the response is validated and the method
returns `None` (modelled as `Json.null`). -/
def Session.logout (self : Session) (resp : Response) :
    Except PyErr Json × Session :=
  match self._vid with
  | none => (.error (.attributeError "_vid"), self)
  | some _ =>
    (match validate_response resp with
     | .ok _ => .ok Json.null
     | .error e => .error e,
     self)

/-- One call to any of the `Session` operations, with its inputs (the
reference date where `fix_date_short` is involved, and the transport's
response). -/
inductive OpCall where
  | armState (ref : DateRef) (resp : Response)
  | temperature (device_label : Option String) (resp : Response)
  | ethernetStatus (resp : Response)
  | lockDevices (resp : Response)
  | lockStatus (resp : Response)
  | armStateSet (code state_ : String) (resp : Response)
  | history (ref : DateRef) (offset : Nat) (resp : Response)
  | doorLock (serialNo code : String) (resp : Response)
  | doorUnlock (serialNo code : String) (resp : Response)
  | lockConfig (device_label : String) (resp : Response)
  | logoutCall (resp : Response)

/-- Dispatch one operation call on a session. -/
def runOp (self : Session) : OpCall → Except PyErr Json × Session
  | .armState ref resp => self.get_arm_state ref resp
  | .temperature lbl resp => self.get_temperature lbl resp
  | .ethernetStatus resp => self.get_ethernet_status resp
  | .lockDevices resp => self.get_lock_devices resp
  | .lockStatus resp => self.get_lock_status resp
  | .armStateSet code st resp => self.set_arm_state code st resp
  | .history ref offset resp => self.get_history ref offset resp
  | .doorLock serialNo code resp => self.lock_doorlock serialNo code resp
  | .doorUnlock serialNo code resp => self.unlock_doorlock serialNo code resp
  | .lockConfig lbl resp => self.get_lock_config lbl resp
  | .logoutCall resp => self.logout resp

/-- The session state left after a sequence of operation calls. -/
def runOps (self : Session) (ops : List OpCall) : Session :=
  ops.foldl (fun s op => (runOp s op).2) self

/-! ### Helper lemmas about the date parser and dict operations -/

theorem digitVal_digitChar : ∀ k, k < 10 → digitVal (Char.ofNat (48 + k)) = some k := by
  decide

theorem isWsChar_digitChar : ∀ k, k < 10 → isWsChar (Char.ofNat (48 + k)) = false := by
  decide

theorem daysInMonth1900_le (m : Nat) : daysInMonth1900 m ≤ 31 := by
  unfold daysInMonth1900
  split <;> omega

theorem parse12_zfill2 (a : Nat) (ha : a < 100) (rest : List Char) :
    parse12 ((zfill2 a).data ++ rest) = some (a, rest) := by
  have h1 : a / 10 % 10 = a / 10 := Nat.mod_eq_of_lt (by omega)
  have d1 := digitVal_digitChar (a / 10 % 10) (Nat.mod_lt _ (by omega))
  have d2 := digitVal_digitChar (a % 10) (Nat.mod_lt _ (by omega))
  simp only [zfill2]
  simp [parse12, d1, d2]
  omega

theorem skipWs_zfill2 (a : Nat) (rest : List Char) :
    skipWs ((zfill2 a).data ++ rest) = (zfill2 a).data ++ rest := by
  have h1 := isWsChar_digitChar (a / 10 % 10) (Nat.mod_lt _ (by omega))
  simp only [zfill2]
  simp [skipWs, h1]

theorem strptime_md_hm_zfill (m d h mi : Nat)
    (hm1 : 1 ≤ m) (hm2 : m ≤ 12) (hd1 : 1 ≤ d) (hd2 : d ≤ daysInMonth1900 m)
    (hh : h ≤ 23) (hmi : mi ≤ 59) :
    strptime_md_hm ((zfill2 m).data ++ '/' :: ((zfill2 d).data ++
        ' ' :: ((zfill2 h).data ++ ':' :: (zfill2 mi).data)))
      = some (m, d, h, mi) := by
  have hd31 : d ≤ 31 := le_trans hd2 (daysInMonth1900_le m)
  have e1 := parse12_zfill2 m (by omega)
    ('/' :: ((zfill2 d).data ++ ' ' :: ((zfill2 h).data ++ ':' :: (zfill2 mi).data)))
  have e2 := parse12_zfill2 d (by omega)
    (' ' :: ((zfill2 h).data ++ ':' :: (zfill2 mi).data))
  have e3 := parse12_zfill2 h (by omega) (':' :: (zfill2 mi).data)
  have e4 : parse12 (zfill2 mi).data = some (mi, []) := by
    have := parse12_zfill2 mi (by omega) []
    simpa using this
  have esw := skipWs_zfill2 h (':' :: (zfill2 mi).data)
  simp [strptime_md_hm, e1, e2, e3, e4, esw, skipWs1, isWsChar,
    hm1, hm2, hd1, hd2, hh, hmi]

theorem strptime_nondigit (c : Char) (hc : digitVal c = none) (l : List Char) :
    strptime_md_hm (c :: l) = none := by
  cases l <;> simp [strptime_md_hm, parse12, hc]

theorem data_mdhm (m d h mi : Nat) :
    (zfill2 m ++ "/" ++ zfill2 d ++ " " ++ zfill2 h ++ ":" ++ zfill2 mi).data
      = (zfill2 m).data ++ '/' :: ((zfill2 d).data ++
          ' ' :: ((zfill2 h).data ++ ':' :: (zfill2 mi).data)) := by
  have h1 : ("/" : String).data = ['/'] := rfl
  have h2 : (" " : String).data = [' '] := rfl
  have h3 : (":" : String).data = [':'] := rfl
  simp [String.data_append, h1, h2, h3]

theorem data_today (h mi : Nat) :
    ("Today " ++ zfill2 h ++ ":" ++ zfill2 mi).data
      = 'T' :: 'o' :: 'd' :: 'a' :: 'y' ::
          (' ' :: ((zfill2 h).data ++ ':' :: (zfill2 mi).data)) := by
  have h1 : ("Today " : String).data = ['T', 'o', 'd', 'a', 'y', ' '] := rfl
  have h3 : (":" : String).data = [':'] := rfl
  simp [String.data_append, h1, h3]

theorem data_yesterday (h mi : Nat) :
    ("Yesterday " ++ zfill2 h ++ ":" ++ zfill2 mi).data
      = 'Y' :: 'e' :: 's' :: 't' :: 'e' :: 'r' :: 'd' :: 'a' :: 'y' ::
          (' ' :: ((zfill2 h).data ++ ':' :: (zfill2 mi).data)) := by
  have h1 : ("Yesterday " : String).data
      = ['Y', 'e', 's', 't', 'e', 'r', 'd', 'a', 'y', ' '] := rfl
  have h3 : (":" : String).data = [':'] := rfl
  simp [String.data_append, h1, h3]

theorem data_mmdd_append (ref : DateRef) (tail : List Char) :
    (mmdd ref).data ++ tail
      = (zfill2 ref.month).data ++ '/' :: ((zfill2 ref.day).data ++ tail) := by
  have h1 : ("/" : String).data = ['/'] := rfl
  simp [mmdd, String.data_append, h1]

theorem fix_date_short_fuel_strptime (ref : DateRef) (fuel : Nat) (s : List Char)
    (m d h mi : Nat) (hp : strptime_md_hm s = some (m, d, h, mi)) :
    fix_date_short_fuel ref (fuel + 1) s = .ok (isoformat ref.year m d h mi) := by
  simp only [fix_date_short_fuel, hp]

theorem relativePrefixRest_today (tail : List Char) :
    relativePrefixRest ('T' :: 'o' :: 'd' :: 'a' :: 'y' :: tail) = some tail := rfl

theorem relativePrefixRest_yesterday (tail : List Char) :
    relativePrefixRest
        ('Y' :: 'e' :: 's' :: 't' :: 'e' :: 'r' :: 'd' :: 'a' :: 'y' :: tail)
      = some tail := rfl

theorem fix_date_short_fuel_sub (ref : DateRef) (fuel : Nat) (s rest : List Char)
    (hns : strptime_md_hm s = none) (hpre : relativePrefixRest s = some rest) :
    fix_date_short_fuel ref (fuel + 1) s
      = fix_date_short_fuel ref fuel ((mmdd ref).data ++ rest) := by
  simp only [fix_date_short_fuel, hns, hpre]

theorem getField_setField_ne (fields : List (String × Json)) (key : String)
    (v : Json) (k : String) (hk : k ≠ key) :
    getField (setField fields key v) k = getField fields k := by
  have hne : ¬ (key = k) := fun h => hk h.symm
  induction fields with
  | nil => simp [setField, getField, hne]
  | cons hd rest ih =>
    obtain ⟨k2, w⟩ := hd
    by_cases hkk : k2 = key
    · subst hkk
      simp [setField, getField, hne]
    · simp [setField, getField, hkk, ih]

theorem filterSerial_filter (lbl : String) (items : List Json)
    (hwf : ∀ i ∈ items, ∃ f v, i = Json.obj f ∧ getField f "serialNo" = some v) :
    filterSerial lbl items = .ok (items.filter (serialMatches lbl)) := by
  induction items with
  | nil => simp [filterSerial]
  | cons i rest ih =>
    obtain ⟨f, v, rfl, hv⟩ := hwf i (List.mem_cons_self i rest)
    have ih2 := ih (fun j hj => hwf j (List.mem_cons_of_mem _ hj))
    cases hb : jsonEqStr v lbl <;>
      simp [filterSerial, hv, ih2, List.filter_cons, serialMatches, hb]

theorem runOp_state (self : Session) (op : OpCall) : (runOp self op).2 = self := by
  cases op with
  | armState ref resp => rfl
  | temperature lbl resp => rfl
  | ethernetStatus resp => rfl
  | lockDevices resp => rfl
  | lockStatus resp => rfl
  | armStateSet code st resp =>
    simp only [runOp, Session.set_arm_state]
    cases self._giid with
    | none => rfl
    | some g =>
      cases self._vid with
      | none => rfl
      | some v => rfl
  | history ref offset resp => rfl
  | doorLock serialNo code resp => rfl
  | doorUnlock serialNo code resp => rfl
  | lockConfig lbl resp =>
    simp only [runOp, Session.get_lock_config]
    cases self._giid with
    | none => rfl
    | some g =>
      cases self._vid with
      | none => rfl
      | some v => rfl
  | logoutCall resp =>
    simp only [runOp, Session.logout]
    cases self._vid with
    | none => rfl
    | some v => rfl

/-! ### Claim theorems -/

/-- Claim C1 (code bug): on an input matching none of the three
recognized shapes, such as `"not-a-date"`, `fix_date_short` does fail —
but with `UnboundLocalError` on the local variable `result` (the
function falls off its `if` chain into `return result.isoformat()`),
not with a `ParseError` carrying the original string; no `ParseError`
class exists in the module. -/
theorem C1_not_a_date_unbound_local :
    fix_date_short ⟨2024, 3, 5⟩ "not-a-date"
      = .error (.unboundLocal "result") := rfl

/-- Claim C2 (code bug): on every non-200 response,
`_validate_response` fails — but with `AttributeError("status_code")`:
the `raise` line reads `response.status_code`, which the program's
`aiohttp.ClientResponse` does not have (it exposes `.status` only, and
its `.text` is a coroutine method, not the string the `ResponseError`
constructor would JSON-decode).  So for every non-200 status the claimed
`ResponseError` carrying the status code and decoded body is never
produced: its branch is unreachable with the program's own transport. -/
theorem C2_non200_attribute_error (response : Response)
    (hne : response.status ≠ 200) :
    validate_response response = .error (.attributeError "status_code")
    ∧ ∀ j, validate_response response
        ≠ .error (.responseError response.status j) := by
  have h1 : validate_response response
      = .error (.attributeError "status_code") := by
    simp [validate_response, hne]
  refine ⟨h1, fun j hc => ?_⟩
  rw [h1] at hc
  injection hc with hinner
  exact PyErr.noConfusion hinner

/-- Witness for C2: status 403 with body `{"msg": "bad"}` raises the
attribute error, not `ResponseError(403, {"msg": "bad"})`. -/
theorem C2_non200_attribute_error_witness :
    validate_response ⟨403, "\x7b\"msg\": \"bad\"\x7d"⟩
        = .error (.attributeError "status_code")
    ∧ validate_response ⟨403, "\x7b\"msg\": \"bad\"\x7d"⟩
        ≠ .error (.responseError 403 (.obj [("msg", .str "bad")])) :=
  ⟨(C2_non200_attribute_error ⟨403, "\x7b\"msg\": \"bad\"\x7d"⟩ (by decide)).1,
   (C2_non200_attribute_error ⟨403, "\x7b\"msg\": \"bad\"\x7d"⟩ (by decide)).2
     (.obj [("msg", .str "bad")])⟩

/-- Claim C6 (confirmed): for every response with status 200,
`_validate_response` parses the body as JSON and returns the parsed
value; when the body is not valid JSON the decode failure is raised
(the spec's `MalformedPayloadError`). -/
theorem C6_validate_200 (response : Response) (h200 : response.status = 200) :
    (∀ j, Json.parse response.body = .ok j →
        validate_response response = .ok j)
    ∧ (∀ e, Json.parse response.body = .error e →
        validate_response response = .error (.jsonDecode e)) := by
  constructor
  · intro j hj
    simp [validate_response, h200, hj]
  · intro e he
    simp [validate_response, h200, he]

/-- Witness for C6: status 200 with body `{"a": 1}` returns the parsed
object, and status 200 with a non-JSON body fails with the decode
error. -/
theorem C6_validate_200_witness :
    validate_response ⟨200, "\x7b\"a\": 1\x7d"⟩ = .ok (.obj [("a", .num 1)])
    ∧ validate_response ⟨200, "not json"⟩
        = .error (.jsonDecode "Expecting value") :=
  ⟨(C6_validate_200 ⟨200, "\x7b\"a\": 1\x7d"⟩ rfl).1 (.obj [("a", .num 1)]) rfl,
   (C6_validate_200 ⟨200, "not json"⟩ rfl).2 "Expecting value" rfl⟩

/-- Claim C3, counterexample: the claim quantifies over every reference
time, but on a February 29 reference (a real `datetime.now()` value in
a leap year) the substituted `"02/29 HH:MM"` string fails to re-parse —
`strptime('%m/%d %H:%M')` validates against its default year 1900 — so
`"Today 14:30"` raises `UnboundLocalError` instead of returning
`"2024-02-29T14:30:00"`. -/
theorem C3_leap_day_reference_counterexample :
    fix_date_short ⟨2024, 2, 29⟩ "Today 14:30"
        = .error (.unboundLocal "result")
    ∧ fix_date_short ⟨2024, 2, 29⟩ "Today 14:30"
        ≠ .ok "2024-02-29T14:30:00" := by
  have h1 : fix_date_short ⟨2024, 2, 29⟩ "Today 14:30"
      = .error (.unboundLocal "result") := rfl
  exact ⟨h1, fun hc => Except.noConfusion (h1.symm.trans hc)⟩

/-- Claim C3 (amended: for every reference time whose month/day is a
valid date of year 1900, i.e. any day except February 29): normalizing
`"Today HH:MM"` substitutes the reference month/day and yields that
date at the given hour/minute, and `"Yesterday HH:MM"` yields the very
same date, not decremented by one day. -/
theorem C3_today_yesterday_use_reference_date (ref : DateRef) (h mi : Nat)
    (hm1 : 1 ≤ ref.month) (hm2 : ref.month ≤ 12)
    (hd1 : 1 ≤ ref.day) (hd2 : ref.day ≤ daysInMonth1900 ref.month)
    (hh : h ≤ 23) (hmi : mi ≤ 59) :
    fix_date_short ref ("Today " ++ zfill2 h ++ ":" ++ zfill2 mi)
        = .ok (isoformat ref.year ref.month ref.day h mi)
    ∧ fix_date_short ref ("Yesterday " ++ zfill2 h ++ ":" ++ zfill2 mi)
        = .ok (isoformat ref.year ref.month ref.day h mi) := by
  have hp := strptime_md_hm_zfill ref.month ref.day h mi hm1 hm2 hd1 hd2 hh hmi
  constructor
  · unfold fix_date_short
    rw [data_today]
    have hns : strptime_md_hm ('T' :: 'o' :: 'd' :: 'a' :: 'y' ::
        (' ' :: ((zfill2 h).data ++ ':' :: (zfill2 mi).data))) = none :=
      strptime_nondigit 'T' rfl _
    refine (fix_date_short_fuel_sub ref 1 _ _ hns (relativePrefixRest_today _)).trans ?_
    rw [data_mmdd_append]
    exact fix_date_short_fuel_strptime ref 0 _ ref.month ref.day h mi hp
  · unfold fix_date_short
    rw [data_yesterday]
    have hns : strptime_md_hm ('Y' :: 'e' :: 's' :: 't' :: 'e' :: 'r' :: 'd' :: 'a' :: 'y' ::
        (' ' :: ((zfill2 h).data ++ ':' :: (zfill2 mi).data))) = none :=
      strptime_nondigit 'Y' rfl _
    refine (fix_date_short_fuel_sub ref 1 _ _ hns (relativePrefixRest_yesterday _)).trans ?_
    rw [data_mmdd_append]
    exact fix_date_short_fuel_strptime ref 0 _ ref.month ref.day h mi hp

/-- Witness for C3: with reference 2024-03-05, `"Today 14:30"` gives
`"2024-03-05T14:30:00"` and `"Yesterday 09:00"` gives
`"2024-03-05T09:00:00"` (same date, not decremented). -/
theorem C3_today_yesterday_witness :
    fix_date_short ⟨2024, 3, 5⟩ "Today 14:30" = .ok "2024-03-05T14:30:00"
    ∧ fix_date_short ⟨2024, 3, 5⟩ "Yesterday 09:00"
        = .ok "2024-03-05T09:00:00" :=
  ⟨(C3_today_yesterday_use_reference_date ⟨2024, 3, 5⟩ 14 30 (by decide)
      (by decide) (by decide) (by decide) (by decide) (by decide)).1,
   (C3_today_yesterday_use_reference_date ⟨2024, 3, 5⟩ 9 0 (by decide)
      (by decide) (by decide) (by decide) (by decide) (by decide)).2⟩

/-- Claim C5, counterexample: `"02/29 14:30"` has the shape
`"MM/DD HH:MM"`, yet with a reference in (leap) year 2024 the function
does not return `"2024-02-29T14:30:00"`: `strptime('%m/%d %H:%M')`
validates the day against its default year 1900 (not a leap year),
raises `ValueError`, and the fall-through ends in `UnboundLocalError`. -/
theorem C5_feb29_counterexample :
    fix_date_short ⟨2024, 3, 5⟩ "02/29 14:30"
        = .error (.unboundLocal "result")
    ∧ fix_date_short ⟨2024, 3, 5⟩ "02/29 14:30"
        ≠ .ok "2024-02-29T14:30:00" := by
  have h1 : fix_date_short ⟨2024, 3, 5⟩ "02/29 14:30"
      = .error (.unboundLocal "result") := rfl
  exact ⟨h1, fun hc => Except.noConfusion (h1.symm.trans hc)⟩

/-- Claim C5 (amended: for every `"MM/DD HH:MM"` input whose month/day
is a valid date of year 1900 — so excluding `"02/29"` — and in-range
hour/minute): the result is an ISO timestamp carrying the reference
year and the input's month, day, hour and minute, with no hypothesis
relating the date to the reference — the reference year is attached
even when the resulting date lies in the future. -/
theorem C5_mmdd_attaches_reference_year (ref : DateRef) (m d h mi : Nat)
    (hm1 : 1 ≤ m) (hm2 : m ≤ 12) (hd1 : 1 ≤ d) (hd2 : d ≤ daysInMonth1900 m)
    (hh : h ≤ 23) (hmi : mi ≤ 59) :
    fix_date_short ref
        (zfill2 m ++ "/" ++ zfill2 d ++ " " ++ zfill2 h ++ ":" ++ zfill2 mi)
      = .ok (isoformat ref.year m d h mi) := by
  unfold fix_date_short
  rw [data_mdhm]
  exact fix_date_short_fuel_strptime ref 1 _ m d h mi
    (strptime_md_hm_zfill m d h mi hm1 hm2 hd1 hd2 hh hmi)

/-- Witness for C5: with reference 2024-01-15, the future-dated input
`"12/24 18:00"` still gets year 2024: `"2024-12-24T18:00:00"`. -/
theorem C5_future_date_witness :
    fix_date_short ⟨2024, 1, 15⟩ "12/24 18:00" = .ok "2024-12-24T18:00:00" :=
  C5_mmdd_attaches_reference_year ⟨2024, 1, 15⟩ 12 24 18 0 (by decide)
    (by decide) (by decide) (by decide) (by decide) (by decide)

/-- Claim C4, counterexample: `get_arm_state` does not normalize a
`time` field — the code reads and rewrites `res['timeex']`.  On a
200 payload whose only date field is `time`, the claim expects the
payload back with `time` normalized, but the call raises
`KeyError('timeex')`. -/
theorem C4_time_field_counterexample :
    ((Session.init "u" "p" "panel" 0).get_arm_state ⟨2024, 3, 5⟩
        ⟨200, "\x7b\"time\": \"01/02 03:04\"\x7d"⟩).1
      = .error (.keyError "timeex")
    ∧ ((Session.init "u" "p" "panel" 0).get_arm_state ⟨2024, 3, 5⟩
        ⟨200, "\x7b\"time\": \"01/02 03:04\"\x7d"⟩).1
      ≠ .ok (.obj [("time", .str "2024-01-02T03:04:00")]) := by
  have h1 : ((Session.init "u" "p" "panel" 0).get_arm_state ⟨2024, 3, 5⟩
      ⟨200, "\x7b\"time\": \"01/02 03:04\"\x7d"⟩).1
      = .error (.keyError "timeex") := rfl
  exact ⟨h1, fun hc => Except.noConfusion (h1.symm.trans hc)⟩

/-- Claim C4 (amended: the normalized field is `timeex`, not `time`):
on every 200 payload object carrying a string `timeex` field whose
value normalizes, `get_arm_state` returns the payload with `timeex`
replaced by the normalized timestamp and every other field
unchanged. -/
theorem C4_timeex_field_normalized (ref : DateRef) (self : Session)
    (resp : Response) (fields : List (String × Json)) (s iso : String)
    (h200 : resp.status = 200)
    (hparse : Json.parse resp.body = .ok (.obj fields))
    (htx : getField fields "timeex" = some (.str s))
    (hfix : fix_date_short ref s = .ok iso) :
    (self.get_arm_state ref resp).1
        = .ok (.obj (setField fields "timeex" (.str iso)))
    ∧ ∀ k, k ≠ "timeex" →
        getField (setField fields "timeex" (.str iso)) k
          = getField fields k := by
  constructor
  · simp [Session.get_arm_state, validate_response, h200, hparse, htx, hfix]
  · intro k hk
    exact getField_setField_ne fields "timeex" (.str iso) k hk

/-- Witness for C4: a 200 payload with a `timeex` field and one other
field comes back with `timeex` normalized and the other field intact. -/
theorem C4_timeex_witness :
    ((Session.init "u" "p" "panel" 0).get_arm_state ⟨2024, 3, 5⟩
        ⟨200, "\x7b\"timeex\": \"Today 14:30\", \"statusType\": \"ARMED\"\x7d"⟩).1
      = .ok (.obj [("timeex", .str "2024-03-05T14:30:00"),
          ("statusType", .str "ARMED")]) :=
  (C4_timeex_field_normalized ⟨2024, 3, 5⟩ (Session.init "u" "p" "panel" 0)
    ⟨200, "\x7b\"timeex\": \"Today 14:30\", \"statusType\": \"ARMED\"\x7d"⟩
    [("timeex", .str "Today 14:30"), ("statusType", .str "ARMED")]
    "Today 14:30" "2024-03-05T14:30:00" rfl rfl rfl rfl).1

/-- Claim C7 (confirmed): with a device label, `get_temperature` keeps
exactly the entries of `temperatureComponentList` whose `serialNo`
equals the label (possibly none), leaving the other payload fields in
place; with no label the validated payload is returned unchanged. -/
theorem C7_temperature_serial_filter (self : Session) (resp : Response)
    (fields : List (String × Json)) (items : List Json) (lbl : String)
    (h200 : resp.status = 200)
    (hparse : Json.parse resp.body = .ok (.obj fields))
    (hlist : getField fields "temperatureComponentList" = some (.arr items))
    (hwf : ∀ i ∈ items, ∃ f v, i = Json.obj f ∧ getField f "serialNo" = some v) :
    (self.get_temperature (some lbl) resp).1
        = .ok (.obj (setField fields "temperatureComponentList"
            (.arr (items.filter (serialMatches lbl)))))
    ∧ (self.get_temperature none resp).1 = .ok (.obj fields) := by
  constructor
  · simp [Session.get_temperature, validate_response, h200, hparse, hlist,
      filterSerial_filter lbl items hwf]
  · simp [Session.get_temperature, validate_response, h200, hparse]

/-- Witness for C7: on a payload with serials ABC123 and XYZ999,
filtering for ABC123 keeps only that entry. -/
theorem C7_temperature_witness :
    ((Session.init "u" "p" "panel" 0).get_temperature (some "ABC123")
        ⟨200, "\x7b\"temperatureComponentList\": [\x7b\"serialNo\": \"ABC123\", \"temperature\": 21\x7d, \x7b\"serialNo\": \"XYZ999\", \"temperature\": 19\x7d]\x7d"⟩).1
      = .ok (.obj [("temperatureComponentList",
          .arr [.obj [("serialNo", .str "ABC123"), ("temperature", .num 21)]])]) :=
  (C7_temperature_serial_filter (Session.init "u" "p" "panel" 0)
    ⟨200, "\x7b\"temperatureComponentList\": [\x7b\"serialNo\": \"ABC123\", \"temperature\": 21\x7d, \x7b\"serialNo\": \"XYZ999\", \"temperature\": 19\x7d]\x7d"⟩
    [("temperatureComponentList",
      .arr [.obj [("serialNo", .str "ABC123"), ("temperature", .num 21)],
        .obj [("serialNo", .str "XYZ999"), ("temperature", .num 19)]])]
    [.obj [("serialNo", .str "ABC123"), ("temperature", .num 21)],
      .obj [("serialNo", .str "XYZ999"), ("temperature", .num 19)]]
    "ABC123" rfl rfl rfl
    (by
      intro i hi
      rcases List.mem_cons.mp hi with rfl | hi2
      · exact ⟨_, _, rfl, rfl⟩
      · rcases List.mem_cons.mp hi2 with rfl | hi3
        · exact ⟨_, _, rfl, rfl⟩
        · exact absurd hi3 (List.not_mem_nil i))).1

/-- Claim C8 (code bug): `get_history` normalizes the `time` field of
every `logs` entry independently, and a malformed entry does make the
whole call fail rather than being skipped — but the failure is the
`UnboundLocalError` escaping `fix_date_short`, not a `ParseError`
(no such class exists in the module).  First conjunct: both entries of
a well-formed payload are normalized; second: a payload whose second
entry is malformed fails with the unbound-local error. -/
theorem C8_history_entries_and_malformed :
    ((Session.init "u" "p" "panel" 0).get_history ⟨2024, 3, 5⟩ 0
        ⟨200, "\x7b\"logs\": [\x7b\"time\": \"01/02 03:04\"\x7d, \x7b\"time\": \"Today 14:30\"\x7d]\x7d"⟩).1
      = .ok (.obj [("logs",
          .arr [.obj [("time", .str "2024-01-02T03:04:00")],
            .obj [("time", .str "2024-03-05T14:30:00")]])])
    ∧ ((Session.init "u" "p" "panel" 0).get_history ⟨2024, 3, 5⟩ 0
        ⟨200, "\x7b\"logs\": [\x7b\"time\": \"01/02 03:04\"\x7d, \x7b\"time\": \"garbage\"\x7d]\x7d"⟩).1
      = .error (.unboundLocal "result") :=
  ⟨rfl, rfl⟩

/-- Claim C9 (confirmed): no `Session` method assigns any attribute —
each operation returns the session state it was given, so after any
sequence of operation calls the state equals the state established at
construction. -/
theorem C9_session_stateless (self : Session) (op : OpCall)
    (ops : List OpCall) :
    (runOp self op).2 = self ∧ runOps self ops = self := by
  refine ⟨runOp_state self op, ?_⟩
  induction ops with
  | nil => rfl
  | cons o rest ih =>
    simp only [runOps, List.foldl_cons]
    rw [runOp_state self o]
    exact ih

/-- Claim C10 (confirmed): `__init__` assigns only `_username`,
`_password`, `_panel` and `session`, so `set_arm_state` and
`get_lock_config` fail reading the never-assigned `_giid` (and would
next fail on `_vid`), and `logout` fails reading `_vid` — all before
any request, for every constructor input and every response, so their
success branches are unreachable. -/
theorem C10_giid_vid_never_assigned (u p pan : String) (hdl : Nat)
    (code st lbl : String) (resp : Response) :
    ((Session.init u p pan hdl).set_arm_state code st resp).1
        = .error (.attributeError "_giid")
    ∧ ((Session.init u p pan hdl).get_lock_config lbl resp).1
        = .error (.attributeError "_giid")
    ∧ ((Session.init u p pan hdl).logout resp).1
        = .error (.attributeError "_vid") :=
  ⟨rfl, rfl, rfl⟩
